import Mathlib

/-!
Verification development for the Nifty50 auto-fetcher
(`src/Nifty50_base.py`).  The Python source is shallowly embedded:

* dynamically-typed dictionary values become the `PyVal` type
  (`None`, numbers modelled over `ℚ`, strings);
* a dictionary field that may be absent becomes an `Option PyVal`
  (absent key = `Option.none`; a present key holding Python `None`
  = `some PyVal.none`);
* code that can raise becomes `Except String _`; a `try/except`
  wrapper becomes a `match` on the `Except` value;
* wall-clock time is modelled by explicit elapsed-time accumulation
  over `ℚ`; the remote provider becomes a function from query index
  to outcome; the filesystem becomes a map from path to content.

Prices are modelled over `ℚ` (Python floats; no claim here depends on
binary floating-point rounding behaviour).
-/

/-- A dynamically typed Python value, restricted to the shapes the
validator manipulates: `None`, numbers, strings. -/
inductive PyVal where
  | none : PyVal
  | num : ℚ → PyVal
  | str : String → PyVal
deriving DecidableEq

/-- The dictionary handed to `validate_stock_data` (source lines
228-237 build it; the validator reads the keys `open`, `high`, `low`,
`close`, `volume` and — in the zero-volume warning — `symbol`).
Each field is `Option.none` when the key is absent from the dict. -/
structure StockRecord where
  open_ : Option PyVal
  high : Option PyVal
  low : Option PyVal
  close : Option PyVal
  volume : Option PyVal
  symbol : Option PyVal

/-- Python comparison `a < b` for the values at hand: number/number and
string/string compare, any other combination raises `TypeError`
(in particular comparing `None` or a string against a number). -/
def pyLt (a b : PyVal) : Except String Bool :=
  match a, b with
  | PyVal.num x, PyVal.num y => Except.ok (decide (x < y))
  | PyVal.str x, PyVal.str y => Except.ok (decide (x < y))
  | _, _ => Except.error ("TypeError")

/-- Python comparison `a <= b`, same typing discipline as `pyLt`. -/
def pyLe (a b : PyVal) : Except String Bool :=
  match a, b with
  | PyVal.num x, PyVal.num y => Except.ok (decide (x ≤ y))
  | PyVal.str x, PyVal.str y => Except.ok (decide (x ≤ y))
  | _, _ => Except.error ("TypeError")

/-- Python equality `a == b`: total, never raises; values of different
shapes are simply unequal. -/
def pyEq (a b : PyVal) : Bool :=
  match a, b with
  | PyVal.num x, PyVal.num y => decide (x = y)
  | PyVal.str x, PyVal.str y => decide (x = y)
  | PyVal.none, PyVal.none => true
  | _, _ => false

/-- Source line 140: `any(v <= 0 for v in [...])` — lazily compares
each value against `0`, stopping at the first `True`; a type error
while comparing propagates. -/
def anyLeZero : List PyVal → Except String Bool
  | [] => Except.ok false
  | v :: rest =>
    match pyLe v (PyVal.num 0) with
    | Except.error e => Except.error e
    | Except.ok true => Except.ok true
    | Except.ok false => anyLeZero rest

/-- The body of `validate_stock_data` (source lines 137-148), i.e. the
code inside the `try:` block.  Key accesses on absent keys raise
`KeyError`; comparisons on ill-typed values raise `TypeError`; both
surface as `Except.error`.  Mirrors the source order: build the list
of the four prices (line 138, raising on a missing key), the `None`
check (138), the positivity check (140), `high < low` (142),
`close > 100000` (144), then the zero-volume warning (146-147, which
reads both `volume` and `symbol`), and finally `return True`. -/
def validate_core (r : StockRecord) : Except String Bool :=
  match r.open_, r.high, r.low, r.close with
  | some o, some h, some l, some c =>
    if o = PyVal.none ∨ h = PyVal.none ∨ l = PyVal.none ∨ c = PyVal.none then
      Except.ok false
    else
      match anyLeZero [o, h, l, c] with
      | Except.error e => Except.error e
      | Except.ok true => Except.ok false
      | Except.ok false =>
        match pyLt h l with
        | Except.error e => Except.error e
        | Except.ok true => Except.ok false
        | Except.ok false =>
          match pyLt (PyVal.num 100000) c with
          | Except.error e => Except.error e
          | Except.ok true => Except.ok false
          | Except.ok false =>
            match r.volume with
            | Option.none => Except.error ("KeyError")
            | some v =>
              if pyEq v (PyVal.num 0) then
                match r.symbol with
                | Option.none => Except.error ("KeyError")
                | some _ => Except.ok true
              else Except.ok true
  | _, _, _, _ => Except.error ("KeyError")

/-- `validate_stock_data` (source lines 135-151): the `try/except`
wrapper around `validate_core` — any raised error is logged and the
function returns `False`. -/
def validate_stock_data (r : StockRecord) : Bool :=
  match validate_core r with
  | Except.ok b => b
  | Except.error _ => false

/-- The acceptance predicate exactly as the specification words it
(spec §4.4, rules 1-4): none of the four prices missing, all four
strictly positive numbers, `high >= low`, `close <= 100000`.  This
definition follows the SPEC text, for comparison with
`validate_stock_data` which follows the source. -/
def specRulesPass (r : StockRecord) : Bool :=
  match r.open_, r.high, r.low, r.close with
  | some (PyVal.num o), some (PyVal.num h), some (PyVal.num l), some (PyVal.num c) =>
    decide (0 < o) && decide (0 < h) && decide (0 < l) && decide (0 < c) &&
      decide (l ≤ h) && decide (c ≤ 100000)
  | _, _, _, _ => false

/-- The auxiliary key lookups the warning path needs: `volume` must be
present, and when it equals `0` the `symbol` key must also be present
(the warning f-string on source line 147 reads it); otherwise the
lookup raises and the `except` arm rejects. -/
def volumeLookupOk (r : StockRecord) : Bool :=
  match r.volume with
  | Option.none => false
  | some v => !(pyEq v (PyVal.num 0)) || r.symbol.isSome

/-- A record whose four prices satisfy every rule of spec §4.4 but
whose `volume` key is absent from the dictionary. -/
def missingVolumeRecord : StockRecord :=
  { open_ := some (PyVal.num 100), high := some (PyVal.num 110),
    low := some (PyVal.num 90), close := some (PyVal.num 100),
    volume := Option.none, symbol := Option.none }

/-- A malformed record: the `open` key is absent entirely. -/
def missingOpenRecord : StockRecord :=
  { open_ := Option.none, high := some (PyVal.num 1),
    low := some (PyVal.num 1), close := some (PyVal.num 1),
    volume := some (PyVal.num 5), symbol := some (PyVal.str ("X")) }

/-- The NSE 2025 holiday list, source lines 69-92, verbatim. -/
def NSE_HOLIDAYS_2025 : List String :=
  ["2025-01-26", "2025-02-26", "2025-03-14", "2025-03-31", "2025-04-10",
   "2025-04-14", "2025-04-18", "2025-05-01", "2025-06-07", "2025-07-07",
   "2025-08-15", "2025-08-16", "2025-08-27", "2025-10-02", "2025-10-21",
   "2025-10-22", "2025-10-23", "2025-11-05", "2025-12-25"]

/-- Numeric value of a decimal digit character. -/
def digitVal (c : Char) : Nat := c.toNat - 48

/-- Two-digit month alternatives of CPython strptime for the directive
that reads months: a leading 1 followed by 0-2, or a leading 0 followed
by 1-9. -/
def parseMonth2 : List Char → Option (Nat × List Char)
  | c1 :: c2 :: rest =>
    if c1 = '1' ∧ 48 ≤ c2.toNat ∧ c2.toNat ≤ 50 then some (10 + digitVal c2, rest)
    else if c1 = '0' ∧ 49 ≤ c2.toNat ∧ c2.toNat ≤ 57 then some (digitVal c2, rest)
    else Option.none
  | _ => Option.none

/-- One-digit alternative 1-9, shared by the month and day directives. -/
def parseNum1 : List Char → Option (Nat × List Char)
  | c :: rest =>
    if 49 ≤ c.toNat ∧ c.toNat ≤ 57 then some (digitVal c, rest) else Option.none
  | [] => Option.none

/-- Two-digit day alternatives of CPython strptime: 30-31, 10-29, or a
leading 0 followed by 1-9. -/
def parseDay2 : List Char → Option (Nat × List Char)
  | c1 :: c2 :: rest =>
    if c1 = '3' ∧ (c2 = '0' ∨ c2 = '1') then some (30 + digitVal c2, rest)
    else if (c1 = '1' ∨ c1 = '2') ∧ 48 ≤ c2.toNat ∧ c2.toNat ≤ 57 then
      some (10 * digitVal c1 + digitVal c2, rest)
    else if c1 = '0' ∧ 49 ≤ c2.toNat ∧ c2.toNat ≤ 57 then some (digitVal c2, rest)
    else Option.none
  | _ => Option.none

/-- Consume a literal dash. -/
def expectDash : List Char → Option (List Char)
  | c :: rest => if c = '-' then some rest else Option.none
  | [] => Option.none

/-- Parse the day and require the end of the string (the strptime of
the source checks the match consumed the whole input); the two-digit
alternatives are tried first, then the one-digit alternative, as in
the strptime regular expression. -/
def parseDayEnd (cs : List Char) : Option Nat :=
  match parseDay2 cs with
  | some (d, []) => some d
  | _ =>
    match parseNum1 cs with
    | some (d, []) => some d
    | _ => Option.none

/-- Parse month, dash, day, end-of-string, with the backtracking order
of the strptime regular expression (two-digit month first, then
one-digit). -/
def parseMDTail (cs : List Char) : Option (Nat × Nat) :=
  let path : Option (Nat × List Char) → Option (Nat × Nat) := fun mres =>
    match mres with
    | some (m, rest) =>
      match expectDash rest with
      | some rest2 =>
        match parseDayEnd rest2 with
        | some d => some (m, d)
        | Option.none => Option.none
      | Option.none => Option.none
    | Option.none => Option.none
  match path (parseMonth2 cs) with
  | some md => some md
  | Option.none => path (parseNum1 cs)

/-- Gregorian leap-year rule, as in Python's calendar/datetime. -/
def isLeapYear (y : Nat) : Bool :=
  (y % 4 = 0 ∧ y % 100 ≠ 0) ∨ y % 400 = 0

/-- Number of days of month `m` of year `y`. -/
def daysInMonth (y m : Nat) : Nat :=
  if m = 2 then (if isLeapYear y then 29 else 28)
  else if m = 4 ∨ m = 6 ∨ m = 9 ∨ m = 11 then 30
  else 31

/-- The model of `datetime.strptime(date_str, s)` for the fixed
year-month-day format of the source: four year digits, a dash, then
month-dash-day as above; the resulting numbers must form a real
calendar date with year at least 1 (the datetime constructor raises
otherwise).  Returns the parsed (year, month, day) or `none` when
strptime would raise `ValueError`. -/
def parseDate (s : String) : Option (Nat × Nat × Nat) :=
  match s.data with
  | c1 :: c2 :: c3 :: c4 :: rest =>
    if c1.isDigit ∧ c2.isDigit ∧ c3.isDigit ∧ c4.isDigit then
      match expectDash rest with
      | some rest2 =>
        match parseMDTail rest2 with
        | some (m, d) =>
          let y := digitVal c1 * 1000 + digitVal c2 * 100 + digitVal c3 * 10 + digitVal c4
          if 1 ≤ y ∧ d ≤ daysInMonth y m then some (y, m, d) else Option.none
        | Option.none => Option.none
      | Option.none => Option.none
    else Option.none
  | _ => Option.none

/-- Days in all years before year `y` (proleptic Gregorian). -/
def daysBeforeYear (y : Nat) : Nat :=
  365 * (y - 1) + (y - 1) / 4 - (y - 1) / 100 + (y - 1) / 400

/-- Days in all months of year `y` before month `m`. -/
def daysBeforeMonth (y m : Nat) : Nat :=
  (List.range (m - 1)).foldl (fun acc i => acc + daysInMonth y (i + 1)) 0

/-- Day count of a date from 0001-01-01 (that date maps to 0). -/
def toOrdinal (y m d : Nat) : Nat :=
  daysBeforeYear y + daysBeforeMonth y m + (d - 1)

/-- Python `date.weekday()`: Monday is 0 through Sunday 6; 0001-01-01
is a Monday in the proleptic Gregorian calendar. -/
def pyWeekday (y m d : Nat) : Nat := toOrdinal y m d % 7

/-- `is_market_open` (source lines 98-107): holiday membership is
checked before any parsing, so a malformed holiday string would return
`False`; otherwise the string is parsed (raising on malformed input,
modelled as `Except.error`) and Saturday/Sunday (weekday 5 or 6) give
`False`, everything else `True`. -/
def is_market_open (date_str : String) : Except String Bool :=
  if date_str ∈ NSE_HOLIDAYS_2025 then Except.ok false
  else
    match parseDate date_str with
    | Option.none => Except.error ("InvalidDate")
    | some (y, m, d) =>
      if pyWeekday y m d = 5 ∨ pyWeekday y m d = 6 then Except.ok false
      else Except.ok true

/-- Zero-padded two-digit rendering, for strftime-produced dates. -/
def pad2 (n : Nat) : String :=
  String.mk [Nat.digitChar (n / 10), Nat.digitChar (n % 10)]

/-- Zero-padded four-digit rendering. -/
def pad4 (n : Nat) : String :=
  String.mk [Nat.digitChar (n / 1000), Nat.digitChar (n / 100 % 10),
    Nat.digitChar (n / 10 % 10), Nat.digitChar (n % 10)]

/-- A date rendered the way the source's strftime calls render dates:
zero-padded year-month-day with dashes. -/
def isoFormat (y m d : Nat) : String :=
  pad4 y ++ "-" ++ pad2 m ++ "-" ++ pad2 d

/-- `get_actual_trading_date` (source lines 109-133).  `probe` is the
date of the most recent row of the provider's reference-symbol window
(`none` when the call failed or the window was empty, both of which
degrade to calendar logic).  `recentDates i` is the strftime rendering
of today minus `i` days.  The backward walk takes the first of 7
candidates reported open; if none qualifies, today's date is the
last-resort fallback. -/
def get_actual_trading_date (probe : Option String) (recentDates : Nat → String) : String :=
  match probe with
  | some d => d
  | Option.none =>
    match (List.range 7).find? (fun i =>
      match is_market_open (recentDates i) with
      | Except.ok true => true
      | _ => false) with
    | some i => recentDates i
    | Option.none => recentDates 0

/-- One row of a provider price-history window, already extracted to
plain values (`float(...)` fields over `ℚ`, integer volume). -/
structure RawRow where
  date : String
  open_ : ℚ
  high : ℚ
  low : ℚ
  close : ℚ
  volume : Int
deriving DecidableEq

/-- Outcome of one provider query inside `fetch_with_retry`: a history
window (possibly empty) or a raised error. -/
inductive QueryOutcome where
  | ok : List RawRow → QueryOutcome
  | raise : String → QueryOutcome

/-- The log lines `fetch_with_retry` can emit, by kind. -/
inductive LogEvent where
  | timeoutWarn
  | emptyRetryWarn
  | errorRetryWarn
  | finalFailure
deriving DecidableEq

/-- Observable trace of one `fetch_with_retry` call: its return value,
the backoff sleeps performed (each 2 seconds in the source), how many
provider queries were issued, and the warning/error log lines. -/
structure FetchTrace where
  result : Option (List RawRow)
  sleeps : List ℚ
  queries : Nat
  logs : List LogEvent
deriving DecidableEq

/-- The retry loop of `fetch_with_retry` (source lines 156-175).
`rem` counts the loop iterations still available (`range(max_retries)`),
`attempt` is the current iteration index, `q` the provider queries
issued so far, `el` the elapsed wall-clock time (`time.time() - start`)
accumulated from query durations `qt` and the fixed 2-second backoffs.
Before each iteration the elapsed-time budget is checked strictly
(line 157); an empty window or an error sleeps 2 seconds and retries
while `attempt < max_retries - 1`, an error on the last attempt
returns `None` immediately (line 174), and a loop that exhausts all
iterations falls through to `return None` (line 175). -/
def fetch_go (prov : Nat → QueryOutcome) (qt : Nat → ℚ) (max_retries : Nat) (tmo : ℚ) :
    Nat → Nat → Nat → ℚ → List ℚ → List LogEvent → FetchTrace
  | 0, _, q, _, sl, lg => ⟨Option.none, sl, q, lg⟩
  | Nat.succ rem, attempt, q, el, sl, lg =>
    if tmo < el then ⟨Option.none, sl, q, lg ++ [LogEvent.timeoutWarn]⟩
    else
      match prov q with
      | QueryOutcome.ok h =>
        if h.isEmpty then
          if attempt < max_retries - 1 then
            fetch_go prov qt max_retries tmo rem (attempt + 1) (q + 1) (el + qt q + 2)
              (sl ++ [2]) (lg ++ [LogEvent.emptyRetryWarn])
          else
            fetch_go prov qt max_retries tmo rem (attempt + 1) (q + 1) (el + qt q) sl lg
        else ⟨some h, sl, q + 1, lg⟩
      | QueryOutcome.raise _ =>
        if attempt < max_retries - 1 then
          fetch_go prov qt max_retries tmo rem (attempt + 1) (q + 1) (el + qt q + 2)
            (sl ++ [2]) (lg ++ [LogEvent.errorRetryWarn])
        else ⟨Option.none, sl, q + 1, lg ++ [LogEvent.finalFailure]⟩

/-- `fetch_with_retry(symbol, max_retries, per_symbol_timeout)`
(source line 153; the source defaults are `max_retries=2` and
`per_symbol_timeout=15`, passed explicitly here).  The symbol only
selects the provider behaviour, so the provider function `prov`
replaces it. -/
def fetch_with_retry (prov : Nat → QueryOutcome) (qt : Nat → ℚ)
    (max_retries : Nat) (per_symbol_timeout : ℚ) : FetchTrace :=
  fetch_go prov qt max_retries per_symbol_timeout max_retries 0 0 0 [] []

/-- Provider stub of spec §8: an empty window on the first two
queries, the window `h` afterwards. -/
def emptyTwiceThenData (h : List RawRow) : Nat → QueryOutcome :=
  fun n => if n ≤ 1 then QueryOutcome.ok [] else QueryOutcome.ok h

/-- Stub query duration: every provider query returns instantly. -/
def zeroQueryTime : Nat → ℚ := fun _ => 0

/-- A concrete non-empty history row for the fetcher stubs. -/
def sampleRow : RawRow :=
  { date := "2025-11-10", open_ := 100, high := 110, low := 90, close := 105, volume := 1000 }

/-- The 50 ticker identifiers, source lines 50-61, verbatim. -/
def NIFTY_50_SYMBOLS : List String :=
  ["RELIANCE.NS", "TCS.NS", "HDFCBANK.NS", "INFY.NS", "ICICIBANK.NS",
   "HINDUNILVR.NS", "ITC.NS", "SBIN.NS", "BHARTIARTL.NS", "KOTAKBANK.NS",
   "LT.NS", "AXISBANK.NS", "ASIANPAINT.NS", "MARUTI.NS", "TITAN.NS",
   "SUNPHARMA.NS", "ULTRACEMCO.NS", "BAJFINANCE.NS", "NESTLEIND.NS", "HCLTECH.NS",
   "WIPRO.NS", "POWERGRID.NS", "NTPC.NS", "TATAMOTORS.NS", "TATASTEEL.NS",
   "M&M.NS", "BAJAJFINSV.NS", "TECHM.NS", "ADANIENT.NS", "ONGC.NS",
   "COALINDIA.NS", "DIVISLAB.NS", "GRASIM.NS", "HINDALCO.NS", "INDUSINDBK.NS",
   "JSWSTEEL.NS", "BRITANNIA.NS", "CIPLA.NS", "EICHERMOT.NS", "HEROMOTOCO.NS",
   "DRREDDY.NS", "APOLLOHOSP.NS", "BPCL.NS", "ADANIPORTS.NS", "TATACONSUM.NS",
   "BAJAJ-AUTO.NS", "SHRIRAMFIN.NS", "SBILIFE.NS", "LTIM.NS", "BEL.NS"]

/-- Python `round(x, 2)` modelled over `ℚ` (round to 2 decimal
places; the tie-breaking of binary floats is not load-bearing for any
claim here). -/
def round2 (q : ℚ) : ℚ := ((round (q * 100) : ℤ) : ℚ) / 100

/-- The per-stock dictionary appended to the snapshot (source lines
228-237). -/
structure StockEntry where
  symbol : String
  company_name : String
  date : String
  open_ : ℚ
  high : ℚ
  low : ℚ
  close : ℚ
  volume : Int
deriving DecidableEq

/-- Build the candidate entry from the latest history row (source
lines 228-237): strip the provider suffix from the identifier, round
prices to 2 decimals, keep the integer volume. -/
def mkEntry (symbol : String) (r : RawRow) : StockEntry :=
  { symbol := symbol.replace (".NS") (""), company_name := symbol.replace (".NS") (""),
    date := r.date, open_ := round2 r.open_, high := round2 r.high,
    low := round2 r.low, close := round2 r.close, volume := r.volume }

/-- The entry viewed as the dictionary the validator receives: every
key present, prices numeric, volume numeric, symbol a string. -/
def entryRecord (e : StockEntry) : StockRecord :=
  { open_ := some (PyVal.num e.open_), high := some (PyVal.num e.high),
    low := some (PyVal.num e.low), close := some (PyVal.num e.close),
    volume := some (PyVal.num (e.volume : ℚ)), symbol := some (PyVal.str e.symbol) }

/-- Per-symbol environment for one run of the builder loop:
`fetch_with_retry` produced no usable window (`noData`), produced a
window whose latest row is `r` (`rowData`), or an exception was raised
inside the per-symbol `try:` before validation (`exn`). -/
inductive SymOutcome where
  | noData
  | rowData : RawRow → SymOutcome
  | exn : String → SymOutcome

/-- The loop accumulator of `fetch_stock_data`: the accepted entries
and the success/failure/invalid counters. -/
structure LoopState where
  stocks : List StockEntry
  succ : Nat
  fail : Nat
  invalid : Nat

/-- One iteration of the builder loop (source lines 222-255): no data
counts a failure; a latest row is turned into an entry and validated —
acceptance appends the entry and bumps the success count, rejection
bumps the invalid count; an exception inside the `try:` counts a
failure.  (The jittered pacing sleep has no effect on the state.) -/
def processSymbol (env : String → SymOutcome) (st : LoopState) (symbol : String) : LoopState :=
  match env symbol with
  | SymOutcome.noData => { st with fail := st.fail + 1 }
  | SymOutcome.exn _ => { st with fail := st.fail + 1 }
  | SymOutcome.rowData r =>
    let e := mkEntry symbol r
    if validate_stock_data (entryRecord e) then
      { st with stocks := st.stocks ++ [e], succ := st.succ + 1 }
    else
      { st with invalid := st.invalid + 1 }

/-- Python `max(...)` over a sequence of strings: `none` on an empty
sequence (where Python would raise; the source guards with a
non-emptiness test), otherwise the left fold of the binary maximum —
lexicographic on strings. -/
def listMaxStr : List String → Option String
  | [] => Option.none
  | x :: xs => some (xs.foldl max x)

/-- The persisted snapshot dictionary (source lines 203-210). -/
structure Snapshot where
  schema_version : String
  fetch_date : String
  fetch_time : String
  market_status : String
  total_stocks : Nat
  stocks : List StockEntry
deriving DecidableEq

/-- The run counters reported in the summary (source lines 212-214). -/
structure RunStats where
  succ : Nat
  fail : Nat
  invalid : Nat
deriving DecidableEq

/-- `fetch_stock_data` (source lines 181-276).  The provisional date
comes from `get_actual_trading_date` (line 194); `market_status` is
computed from the invocation time `now_hm`, the integer `HHMM`
(lines 200-201); the loop folds `processSymbol` over the 50 symbols;
after the loop `total_stocks` is set to the success count (line 258)
and, when the accepted list is non-empty, `fetch_date` is overwritten
with the maximum date among accepted entries (lines 261-262). -/
def fetch_stock_data (env : String → SymOutcome) (probe : Option String)
    (recentDates : Nat → String) (fetch_time : String) (now_hm : Nat) :
    Snapshot × RunStats :=
  let date_string := get_actual_trading_date probe recentDates
  let market_status := if 915 ≤ now_hm ∧ now_hm ≤ 1530 then ("open") else ("closed")
  let final := NIFTY_50_SYMBOLS.foldl (processSymbol env) ⟨[], 0, 0, 0⟩
  let fetch_date :=
    match listMaxStr (final.stocks.map StockEntry.date) with
    | some m => m
    | Option.none => date_string
  ({ schema_version := "1.0", fetch_date := fetch_date, fetch_time := fetch_time,
     market_status := market_status, total_stocks := final.succ, stocks := final.stocks },
   { succ := final.succ, fail := final.fail, invalid := final.invalid })

/-- Pointwise update of the filesystem model: set (or with `none`,
remove) the content at one path. -/
def fsUpdate (files : String → Option String) (p : String) (v : Option String) :
    String → Option String :=
  fun q => if q = p then v else files q

/-- Result of `save_to_json_atomic`: whether it returned normally
(`ok = false` models the re-raised exception reaching the caller), the
final path it targeted, and the filesystem afterwards. -/
structure SaveResult where
  ok : Bool
  finalPath : String
  fs : String → Option String

/-- The output directory of the source (line 25), as a path prefix. -/
def OUTPUT_DIR : String := "nifty50_data"

/-- `save_to_json_atomic` (source lines 278-312).  The default
filename derives from the snapshot's `fetch_date`; the serialized
snapshot is written to `final_path + ".tmp"`; `shutil.move` then
renames it onto the final path.  Fault injection: `writeFault = some
leftover` makes the write phase raise after leaving `leftover` at the
temporary path (`none` inside meaning no file was created), and
`moveFault = true` makes the rename raise without touching the final
path.  On either fault the `except` arm removes the temporary file if
it exists and re-raises (`ok = false`).  `saveCore` is the
write-then-rename body over the already computed final path;
`save_to_json_atomic` resolves the filename and calls it. -/
def saveCore (files : String → Option String) (final_path serialized : String)
    (writeFault : Option (Option String)) (moveFault : Bool) : SaveResult :=
  let temp_path := final_path ++ ".tmp"
  match writeFault with
  | some leftover =>
    { ok := false, finalPath := final_path,
      fs := fsUpdate (fsUpdate files temp_path leftover) temp_path Option.none }
  | Option.none =>
    let written := fsUpdate files temp_path (some serialized)
    if moveFault then
      { ok := false, finalPath := final_path,
        fs := fsUpdate written temp_path Option.none }
    else
      { ok := true, finalPath := final_path,
        fs := fsUpdate (fsUpdate written temp_path Option.none) final_path (some serialized) }

def save_to_json_atomic (files : String → Option String) (fetch_date : String)
    (filename : Option String) (serialized : String)
    (writeFault : Option (Option String)) (moveFault : Bool) : SaveResult :=
  saveCore files
    (OUTPUT_DIR ++ "/" ++
      (match filename with
       | some f => f
       | Option.none => "nifty50_" ++ fetch_date ++ ".json"))
    serialized writeFault moveFault

/-- How a run can abort before reaching `sys.exit(0)`: a keyboard
interrupt or an unhandled exception. -/
inductive RunAbort where
  | interrupted
  | fault : String → RunAbort

/-- The `__main__` block (source lines 318-364) as a function of the
outcome of `fetch_stock_data` (a snapshot, or an abort raised during
the run) and of whether persistence succeeded.  Returns the process
exit code and whether the low-success-rate warning was logged:
zero accepted records exits 1 (line 338); fewer than 40 logs the
warning (lines 340-343); a persistence failure or any abort reaches an
`except` arm and exits 1 (lines 355-364); otherwise exit 0 (line 353). -/
def main_exit (res : Except RunAbort Snapshot) (saveOk : Bool) : Nat × Bool :=
  match res with
  | Except.error _ => (1, false)
  | Except.ok s =>
    if s.total_stocks = 0 then (1, false)
    else
      let lowWarn := decide (s.total_stocks < 40)
      if saveOk then (0, lowWarn) else (1, lowWarn)

theorem anyLeZero_ok_false :
    ∀ l : List PyVal, anyLeZero l = Except.ok false →
      ∀ v ∈ l, ∃ q : ℚ, v = PyVal.num q ∧ 0 < q := by
  intro l
  induction l with
  | nil =>
    intro _ v hv
    cases hv
  | cons a rest ih =>
    intro h v hv
    unfold anyLeZero at h
    cases a with
    | none => simp [pyLe] at h
    | str s => simp [pyLe] at h
    | num q =>
      simp only [pyLe] at h
      by_cases hq : q ≤ 0
      · rw [decide_eq_true hq] at h
        simp at h
      · rw [decide_eq_false hq] at h
        simp only [] at h
        rcases List.mem_cons.mp hv with rfl | hv'
        · exact ⟨q, rfl, lt_of_not_le hq⟩
        · exact ih h v hv'

theorem anyLeZero_nums_pos {o h l c : ℚ}
    (ho : 0 < o) (hh : 0 < h) (hl : 0 < l) (hc : 0 < c) :
    anyLeZero [PyVal.num o, PyVal.num h, PyVal.num l, PyVal.num c] =
      Except.ok false := by
  simp only [anyLeZero, pyLe, decide_eq_false ho.not_le, decide_eq_false hh.not_le,
    decide_eq_false hl.not_le, decide_eq_false hc.not_le]

theorem validate_core_ok_true_iff (r : StockRecord) :
    validate_core r = Except.ok true ↔ (specRulesPass r && volumeLookupOk r) = true := by
  constructor
  · intro hc
    unfold validate_core at hc
    split at hc
    case h_2 => simp at hc
    case h_1 o h l c heqo heqh heql heqc =>
      split at hc
      · simp at hc
      case isFalse hnone =>
        split at hc
        case h_1 => simp at hc
        case h_2 => simp at hc
        case h_3 hany =>
          split at hc
          case h_1 => simp at hc
          case h_2 => simp at hc
          case h_3 hhl =>
            split at hc
            case h_1 => simp at hc
            case h_2 => simp at hc
            case h_3 hcg =>
              have hmem := anyLeZero_ok_false _ hany
              obtain ⟨qo, rfl, hqo⟩ := hmem o (by simp)
              obtain ⟨qh, rfl, hqh⟩ := hmem h (by simp)
              obtain ⟨ql, rfl, hql⟩ := hmem l (by simp)
              obtain ⟨qc, rfl, hqc⟩ := hmem c (by simp)
              simp only [pyLt, Except.ok.injEq] at hhl hcg
              have hlh : ql ≤ qh := not_lt.mp (of_decide_eq_false hhl)
              have hcle : qc ≤ 100000 := not_lt.mp (of_decide_eq_false hcg)
              split at hc
              · simp at hc
              case h_2 v heqv =>
                simp only [specRulesPass, volumeLookupOk, heqo, heqh, heql, heqc, heqv,
                  decide_eq_true hqo, decide_eq_true hqh, decide_eq_true hql,
                  decide_eq_true hqc, decide_eq_true hlh, decide_eq_true hcle,
                  Bool.and_self, Bool.true_and]
                split at hc
                case isTrue hz =>
                  split at hc
                  · simp at hc
                  case h_2 w heqs =>
                    simp [heqs, hz]
                case isFalse hz =>
                  simp [hz]
  · intro hb
    rw [Bool.and_eq_true] at hb
    obtain ⟨hrules, hvol⟩ := hb
    unfold specRulesPass at hrules
    split at hrules
    case h_2 => simp at hrules
    case h_1 o h l c heqo heqh heql heqc =>
      simp only [Bool.and_eq_true, decide_eq_true_eq] at hrules
      obtain ⟨⟨⟨⟨⟨ho, hh⟩, hl⟩, hc⟩, hlh⟩, hcle⟩ := hrules
      unfold volumeLookupOk at hvol
      split at hvol
      · simp at hvol
      case h_2 v heqv =>
        unfold validate_core
        rw [heqo, heqh, heql, heqc]
        simp only [anyLeZero_nums_pos ho hh hl hc]
        have hnone : ¬(PyVal.num o = PyVal.none ∨ PyVal.num h = PyVal.none ∨
            PyVal.num l = PyVal.none ∨ PyVal.num c = PyVal.none) := by simp
        rw [if_neg hnone]
        simp only [pyLt, decide_eq_false (not_lt.mpr hlh), decide_eq_false (not_lt.mpr hcle)]
        rw [heqv]
        rw [Bool.or_eq_true, Bool.not_eq_true'] at hvol
        by_cases hz : pyEq v (PyVal.num 0) = true
        · rcases hvol with hvol | hvol
          · rw [hz] at hvol
            cases hvol
          · rw [Option.isSome_iff_exists] at hvol
            obtain ⟨w, hw⟩ := hvol
            simp [hz, hw]
        · simp [hz]

theorem validate_characterization_aux (r : StockRecord) :
    validate_stock_data r = (specRulesPass r && volumeLookupOk r) := by
  unfold validate_stock_data
  cases hb : specRulesPass r && volumeLookupOk r
  · cases hc : validate_core r with
    | ok b =>
      cases b
      · rfl
      · rw [(validate_core_ok_true_iff r).mp hc] at hb
        cases hb
    | error e => rfl
  · rw [(validate_core_ok_true_iff r).mpr hb]

/-- Claim C3, counterexample: `missingVolumeRecord` passes all four
spec rules (no price missing, all positive, high ≥ low,
close ≤ 100000) yet `validate_stock_data` rejects it — the `volume`
key lookup on source line 146 raises `KeyError` and the `except` arm
returns `False`.  So acceptance is not equivalent to the four rules. -/
theorem validate_iff_rules_counterexample :
    specRulesPass missingVolumeRecord = true ∧
      validate_stock_data missingVolumeRecord = false := by
  constructor
  · rfl
  · rfl

/-- Claim C3 (amended): `validate_stock_data` accepts exactly when the
four spec rules hold (no price missing, all four prices strictly
positive, high ≥ low, close ≤ 100000) AND the auxiliary lookups of the
warning path succeed: the `volume` key is present and, when its value
equals `0`, the `symbol` key is present too.  In particular a record
with zero volume and a `symbol` field is accepted, not rejected. -/
theorem validate_accepts_iff_rules_amended (r : StockRecord) :
    validate_stock_data r = (specRulesPass r && volumeLookupOk r) :=
  validate_characterization_aux r

/-- Claim C4: the validator is total and fail-closed — on every input
it returns a boolean, and whenever the `try:` body raises
(`validate_core` yields an error), the wrapper returns `False` rather
than propagating the fault. -/
theorem validate_total_fail_closed (r : StockRecord) :
    (validate_stock_data r = true ∨ validate_stock_data r = false) ∧
      ∀ e, validate_core r = Except.error e → validate_stock_data r = false := by
  constructor
  · cases hb : validate_stock_data r
    · exact Or.inr rfl
    · exact Or.inl rfl
  · intro e he
    unfold validate_stock_data
    rw [he]

theorem validate_total_fail_closed_witness :
    validate_core missingOpenRecord = Except.error ("KeyError") ∧
      validate_stock_data missingOpenRecord = false :=
  ⟨rfl, (validate_total_fail_closed missingOpenRecord).2 ("KeyError") rfl⟩

theorem foldl_max_mem {α : Type} [LinearOrder α] :
    ∀ (l : List α) (a : α), l.foldl max a ∈ a :: l := by
  intro l
  induction l with
  | nil =>
    intro a
    simp [List.foldl]
  | cons b t ih =>
    intro a
    have h := ih (max a b)
    simp only [List.foldl_cons]
    rcases List.mem_cons.mp h with h1 | h1
    · rw [h1]
      rcases max_choice a b with hm | hm <;> rw [hm] <;> simp
    · exact List.mem_cons_of_mem a (List.mem_cons_of_mem b h1)

theorem le_foldl_max {α : Type} [LinearOrder α] :
    ∀ (l : List α) (a x : α), x ∈ a :: l → x ≤ l.foldl max a := by
  intro l
  induction l with
  | nil =>
    intro a x hx
    rcases List.mem_cons.mp hx with rfl | h
    · simp [List.foldl]
    · cases h
  | cons b t ih =>
    intro a x hx
    simp only [List.foldl_cons]
    rcases List.mem_cons.mp hx with rfl | h1
    · exact le_trans (le_max_left x b) (ih (max x b) (max x b) (List.mem_cons_self _ _))
    · rcases List.mem_cons.mp h1 with rfl | h2
      · exact le_trans (le_max_right a x) (ih (max a x) (max a x) (List.mem_cons_self _ _))
      · exact ih (max a b) x (List.mem_cons_of_mem _ h2)

theorem loop_succ_eq_length (env : String → SymOutcome) :
    ∀ (syms : List String) (st : LoopState), st.succ = st.stocks.length →
      (List.foldl (processSymbol env) st syms).succ =
        (List.foldl (processSymbol env) st syms).stocks.length := by
  intro syms
  induction syms with
  | nil =>
    intro st h
    simpa using h
  | cons s t ih =>
    intro st h
    rw [List.foldl_cons]
    apply ih
    unfold processSymbol
    cases env s with
    | noData => simpa using h
    | exn e => simpa using h
    | rowData r =>
      by_cases hv : validate_stock_data (entryRecord (mkEntry s r)) = true
      · simp [hv, h]
      · simp [hv, h]

/-- Claim C2: in every snapshot returned by `fetch_stock_data`, the
`total_stocks` field equals the length of the stocks sequence — an
entry is appended exactly when the success count is incremented, and
`total_stocks` is set to the success count after the loop. -/
theorem total_stocks_eq_stocks_length (env : String → SymOutcome) (probe : Option String)
    (recentDates : Nat → String) (fetch_time : String) (now_hm : Nat) :
    (fetch_stock_data env probe recentDates fetch_time now_hm).1.total_stocks =
      (fetch_stock_data env probe recentDates fetch_time now_hm).1.stocks.length := by
  unfold fetch_stock_data
  exact loop_succ_eq_length env NIFTY_50_SYMBOLS ⟨[], 0, 0, 0⟩ rfl

/-- Claim C1: the final snapshot's `fetch_date` is the maximum date
string among accepted entries — it is the date of some accepted entry
and every accepted entry's date is at most it — and when the accepted
list is empty it is exactly the Oracle's provisional date from
`get_actual_trading_date`. -/
theorem fetch_date_max_of_accepted (env : String → SymOutcome) (probe : Option String)
    (recentDates : Nat → String) (fetch_time : String) (now_hm : Nat) :
    (((fetch_stock_data env probe recentDates fetch_time now_hm).1.stocks.all
        (fun e => decide (e.date ≤
          (fetch_stock_data env probe recentDates fetch_time now_hm).1.fetch_date))) = true) ∧
      (((fetch_stock_data env probe recentDates fetch_time now_hm).1.stocks = [] ∧
          (fetch_stock_data env probe recentDates fetch_time now_hm).1.fetch_date =
            get_actual_trading_date probe recentDates) ∨
        (fetch_stock_data env probe recentDates fetch_time now_hm).1.fetch_date ∈
          (fetch_stock_data env probe recentDates fetch_time now_hm).1.stocks.map
            StockEntry.date) := by
  unfold fetch_stock_data
  cases hst : (NIFTY_50_SYMBOLS.foldl (processSymbol env) ⟨[], 0, 0, 0⟩).stocks with
  | nil => simp [hst, listMaxStr]
  | cons e t =>
    simp only [hst, List.map_cons, listMaxStr]
    constructor
    · rw [List.all_eq_true]
      intro x hx
      rw [decide_eq_true_eq]
      exact le_foldl_max (t.map StockEntry.date) e.date x.date
        (by
          rcases List.mem_cons.mp hx with rfl | h2
          · exact List.mem_cons_self _ _
          · exact List.mem_cons_of_mem _ (List.mem_map_of_mem StockEntry.date h2))
    · right
      exact foldl_max_mem (t.map StockEntry.date) e.date

/-- Claim C10: the snapshot's `market_status` is the string `open`
exactly when the invocation time, read as the integer `HHMM`, lies in
the closed interval 915 to 1530, and `closed` otherwise (source lines
200-201). -/
theorem market_status_open_iff (env : String → SymOutcome) (probe : Option String)
    (recentDates : Nat → String) (fetch_time : String) (now_hm : Nat) :
    ((fetch_stock_data env probe recentDates fetch_time now_hm).1.market_status = "open") ↔
      (915 ≤ now_hm ∧ now_hm ≤ 1530) := by
  unfold fetch_stock_data
  by_cases h : 915 ≤ now_hm ∧ now_hm ≤ 1530
  · rw [if_pos h]
    exact iff_of_true rfl h
  · rw [if_neg h]
    refine iff_of_false (fun hc => ?_) h
    have hstr : ("closed" : String) = "open" := hc
    exact absurd hstr (by decide)

/-- Claim C6: the per-symbol elapsed-time budget is checked before
each attempt; once the elapsed time strictly exceeds the timeout, the
loop issues no further provider query (`queries` stays at `q`),
returns no-data, and logs a timeout warning rather than an error. -/
theorem fetch_timeout_aborts (prov : Nat → QueryOutcome) (qt : Nat → ℚ) (max_retries : Nat)
    (tmo : ℚ) (rem attempt q : Nat) (el : ℚ) (sl : List ℚ) (lg : List LogEvent)
    (htmo : tmo < el) :
    fetch_go prov qt max_retries tmo (Nat.succ rem) attempt q el sl lg =
      { result := Option.none, sleeps := sl, queries := q,
        logs := lg ++ [LogEvent.timeoutWarn] } := by
  rw [fetch_go]
  rw [if_pos htmo]

theorem fetch_timeout_aborts_witness :
    (15 : ℚ) < 16 ∧
      fetch_go (emptyTwiceThenData [sampleRow]) zeroQueryTime 2 15 (Nat.succ 1) 0 0 16 [] [] =
        { result := Option.none, sleeps := [], queries := 0,
          logs := [LogEvent.timeoutWarn] } :=
  ⟨by norm_num,
   fetch_timeout_aborts (emptyTwiceThenData [sampleRow]) zeroQueryTime 2 15 1 0 0 16 [] []
     (by norm_num)⟩

theorem fetch_go_step_empty_retry (prov : Nat → QueryOutcome) (qt : Nat → ℚ)
    (mr : Nat) (tmo : ℚ) (rem attempt q : Nat) (el : ℚ) (sl : List ℚ) (lg : List LogEvent)
    (htmo : ¬ tmo < el) (hq : prov q = QueryOutcome.ok []) (hatt : attempt < mr - 1) :
    fetch_go prov qt mr tmo (Nat.succ rem) attempt q el sl lg =
      fetch_go prov qt mr tmo rem (attempt + 1) (q + 1) (el + qt q + 2)
        (sl ++ [2]) (lg ++ [LogEvent.emptyRetryWarn]) := by
  rw [fetch_go, if_neg htmo, hq]
  simp [hatt]

theorem fetch_go_step_empty_last (prov : Nat → QueryOutcome) (qt : Nat → ℚ)
    (mr : Nat) (tmo : ℚ) (rem attempt q : Nat) (el : ℚ) (sl : List ℚ) (lg : List LogEvent)
    (htmo : ¬ tmo < el) (hq : prov q = QueryOutcome.ok []) (hatt : ¬ attempt < mr - 1) :
    fetch_go prov qt mr tmo (Nat.succ rem) attempt q el sl lg =
      fetch_go prov qt mr tmo rem (attempt + 1) (q + 1) (el + qt q) sl lg := by
  rw [fetch_go, if_neg htmo, hq]
  simp [hatt]

theorem fetch_go_step_data (prov : Nat → QueryOutcome) (qt : Nat → ℚ)
    (mr : Nat) (tmo : ℚ) (rem attempt q : Nat) (el : ℚ) (sl : List ℚ) (lg : List LogEvent)
    (h : List RawRow)
    (htmo : ¬ tmo < el) (hq : prov q = QueryOutcome.ok h) (hne : h.isEmpty = false) :
    fetch_go prov qt mr tmo (Nat.succ rem) attempt q el sl lg =
      { result := some h, sleeps := sl, queries := q + 1, logs := lg } := by
  rw [fetch_go, if_neg htmo, hq]
  simp [hne]

/-- Claim C5, counterexample: with the source's default arguments
(`max_retries = 2`, `per_symbol_timeout = 15`) and a provider stub
returning an empty window on the first two queries and a non-empty one
afterwards, the loop runs only two attempts: it sleeps once (one
2-second backoff, not two), issues two queries (a third attempt never
happens), and returns no-data instead of the third attempt's window. -/
theorem fetch_retry_default_counterexample :
    fetch_with_retry (emptyTwiceThenData [sampleRow]) zeroQueryTime 2 15 =
      { result := Option.none, sleeps := [2], queries := 2,
        logs := [LogEvent.emptyRetryWarn] } := by
  unfold fetch_with_retry
  rw [fetch_go_step_empty_retry (emptyTwiceThenData [sampleRow]) zeroQueryTime 2 15 1 0 0 0 [] []
    (by norm_num) rfl (by norm_num)]
  norm_num [zeroQueryTime]
  rw [fetch_go_step_empty_last (emptyTwiceThenData [sampleRow]) zeroQueryTime 2 15 0 1 1 2 [2]
    [LogEvent.emptyRetryWarn] (by norm_num) rfl (by norm_num)]
  rw [fetch_go]

/-- Claim C5 (amended): the claimed behaviour — two 2-second backoff
delays and the third attempt's window returned — holds when
`fetch_with_retry` is called with `max_retries = 3` (not the source
default of 2) and the default timeout 15, against the
empty-empty-success provider stub with instantaneous queries. -/
theorem fetch_retry_three_attempts (h : List RawRow) (hne : h.isEmpty = false) :
    fetch_with_retry (emptyTwiceThenData h) zeroQueryTime 3 15 =
      { result := some h, sleeps := [2, 2], queries := 3,
        logs := [LogEvent.emptyRetryWarn, LogEvent.emptyRetryWarn] } := by
  unfold fetch_with_retry
  rw [fetch_go_step_empty_retry (emptyTwiceThenData h) zeroQueryTime 3 15 2 0 0 0 [] []
    (by norm_num) rfl (by norm_num)]
  norm_num [zeroQueryTime]
  rw [fetch_go_step_empty_retry (emptyTwiceThenData h) zeroQueryTime 3 15 1 1 1 2 [2]
    [LogEvent.emptyRetryWarn] (by norm_num) rfl (by norm_num)]
  norm_num [zeroQueryTime]
  have hp : emptyTwiceThenData h 2 = QueryOutcome.ok h := rfl
  rw [fetch_go_step_data (emptyTwiceThenData h) zeroQueryTime 3 15 0 2 2 4 [2, 2]
    [LogEvent.emptyRetryWarn, LogEvent.emptyRetryWarn] h (by norm_num) hp hne]

theorem fetch_retry_three_attempts_witness :
    ([sampleRow] : List RawRow).isEmpty = false ∧
      fetch_with_retry (emptyTwiceThenData [sampleRow]) zeroQueryTime 3 15 =
        { result := some [sampleRow], sleeps := [2, 2], queries := 3,
          logs := [LogEvent.emptyRetryWarn, LogEvent.emptyRetryWarn] } :=
  ⟨rfl, fetch_retry_three_attempts [sampleRow] rfl⟩

theorem append_tmp_ne (s : String) : s ++ ".tmp" ≠ s := by
  intro h
  have hlen := congrArg String.length h
  rw [String.length_append] at hlen
  have h4 : (".tmp" : String).length = 4 := rfl
  rw [h4] at hlen
  omega

theorem saveCore_finalPath (files : String → Option String) (F serialized : String)
    (writeFault : Option (Option String)) (moveFault : Bool) :
    (saveCore files F serialized writeFault moveFault).finalPath = F := by
  cases writeFault with
  | some leftover => rfl
  | none =>
    cases moveFault with
    | true => rfl
    | false => rfl

theorem saveCore_post (files : String → Option String) (F serialized : String)
    (writeFault : Option (Option String)) (moveFault : Bool) :
    ((saveCore files F serialized writeFault moveFault).ok = true →
        (saveCore files F serialized writeFault moveFault).fs F = some serialized ∧
        (saveCore files F serialized writeFault moveFault).fs (F ++ ".tmp") = Option.none) ∧
    ((saveCore files F serialized writeFault moveFault).ok = false →
        (saveCore files F serialized writeFault moveFault).fs F = files F ∧
        (saveCore files F serialized writeFault moveFault).fs (F ++ ".tmp") = Option.none) ∧
    (∀ p, p ≠ F → p ≠ F ++ ".tmp" →
        (saveCore files F serialized writeFault moveFault).fs p = files p) := by
  have hne : F ≠ F ++ ".tmp" := (append_tmp_ne F).symm
  cases writeFault with
  | some leftover =>
    refine ⟨fun hok => ?_, fun _ => ⟨?_, ?_⟩, fun p hp1 hp2 => ?_⟩
    · exact absurd hok (by simp [saveCore])
    · simp [saveCore, fsUpdate, hne]
    · simp [saveCore, fsUpdate]
    · simp [saveCore, fsUpdate, hp2]
  | none =>
    cases moveFault with
    | true =>
      refine ⟨fun hok => ?_, fun _ => ⟨?_, ?_⟩, fun p hp1 hp2 => ?_⟩
      · exact absurd hok (by simp [saveCore])
      · simp [saveCore, fsUpdate, hne]
      · simp [saveCore, fsUpdate]
      · simp [saveCore, fsUpdate, hp2]
    | false =>
      refine ⟨fun _ => ⟨?_, ?_⟩, fun hok => ?_, fun p hp1 hp2 => ?_⟩
      · simp [saveCore, fsUpdate]
      · simp [saveCore, fsUpdate, append_tmp_ne F]
      · exact absurd hok (by simp [saveCore])
      · simp [saveCore, fsUpdate, hp1, hp2]

/-- Claim C7: `save_to_json_atomic` writes the full serialization to a
co-located temporary path and renames it onto the final path last; on
a normal return the final path holds exactly the new serialization and
the temporary file is gone, on a failing return (the exception
propagating to the caller) the final path still holds its prior
content and the temporary file has been cleaned up, and no other path
is ever touched — so the final path is never a partial artifact. -/
theorem save_atomic_correct (files : String → Option String) (fetch_date : String)
    (filename : Option String) (serialized : String)
    (writeFault : Option (Option String)) (moveFault : Bool) (r : SaveResult)
    (hr : r = save_to_json_atomic files fetch_date filename serialized writeFault moveFault) :
    (r.ok = true → r.fs r.finalPath = some serialized ∧
        r.fs (r.finalPath ++ ".tmp") = Option.none) ∧
    (r.ok = false → r.fs r.finalPath = files r.finalPath ∧
        r.fs (r.finalPath ++ ".tmp") = Option.none) ∧
    (∀ p, p ≠ r.finalPath → p ≠ r.finalPath ++ ".tmp" → r.fs p = files p) := by
  subst hr
  unfold save_to_json_atomic
  rw [saveCore_finalPath]
  exact saveCore_post files _ serialized writeFault moveFault

theorem save_atomic_correct_witness :
    ((save_to_json_atomic (fun _ => Option.none) ("2025-11-10") Option.none ("S") Option.none
        false).fs
      (save_to_json_atomic (fun _ => Option.none) ("2025-11-10") Option.none ("S") Option.none
        false).finalPath = some ("S")) ∧
    ((save_to_json_atomic (fun _ => Option.none) ("2025-11-10") Option.none ("S") Option.none
        false).fs
      ((save_to_json_atomic (fun _ => Option.none) ("2025-11-10") Option.none ("S") Option.none
        false).finalPath ++ ".tmp") = Option.none) :=
  (save_atomic_correct (fun _ => Option.none) ("2025-11-10") Option.none ("S") Option.none false
    _ rfl).1 rfl

/-- Claim C8: the process exits 0 exactly when the run produced a
snapshot with at least one accepted record and persistence succeeded;
zero accepted records, an interrupt, or an unhandled fault (including
a persistence failure) exit 1; and a run with at least one but fewer
than 40 accepted records still exits 0 while logging the low-success
warning. -/
theorem main_exit_contract (res : Except RunAbort Snapshot) (saveOk : Bool) :
    ((main_exit res saveOk).1 = 0 ↔
        (∃ s, res = Except.ok s ∧ 1 ≤ s.total_stocks) ∧ saveOk = true) ∧
    (∀ s, res = Except.ok s → 1 ≤ s.total_stocks → s.total_stocks < 40 → saveOk = true →
        main_exit res saveOk = (0, true)) := by
  constructor
  · cases res with
    | error a => simp [main_exit]
    | ok s =>
      by_cases h0 : s.total_stocks = 0
      · simp [main_exit, h0]
      · cases saveOk with
        | true => simp [main_exit, h0, Nat.one_le_iff_ne_zero]
        | false => simp [main_exit, h0]
  · intro s hs h1 h40 hsave
    subst hs
    subst hsave
    have h0 : ¬ s.total_stocks = 0 := by omega
    simp [main_exit, h0, h40]

/-- A snapshot with a single accepted record, for exercising the
low-success-rate path of the exit contract. -/
def lowSnapshot : Snapshot :=
  { schema_version := "1.0", fetch_date := "2025-11-10",
    fetch_time := "2025-11-10 18:00:00", market_status := "closed",
    total_stocks := 1, stocks := [mkEntry ("RELIANCE.NS") sampleRow] }

theorem main_exit_contract_witness :
    main_exit (Except.ok lowSnapshot) true = (0, true) :=
  (main_exit_contract (Except.ok lowSnapshot) true).2 lowSnapshot rfl
    (Nat.le_refl 1) (by norm_num [lowSnapshot]) rfl

theorem digitChar_toNat (k : Nat) (hk : k < 10) : (Nat.digitChar k).toNat = 48 + k := by
  interval_cases k <;> rfl

theorem digitChar_isDigit (k : Nat) (hk : k < 10) : (Nat.digitChar k).isDigit = true := by
  interval_cases k <;> rfl

theorem digitVal_digitChar (k : Nat) (hk : k < 10) : digitVal (Nat.digitChar k) = k := by
  interval_cases k <;> rfl

theorem parseMonth2_pad (m : Nat) (hm1 : 1 ≤ m) (hm2 : m ≤ 12) (rest : List Char) :
    parseMonth2 (Nat.digitChar (m / 10) :: Nat.digitChar (m % 10) :: rest) = some (m, rest) := by
  interval_cases m <;> rfl

theorem parseDay2_pad (d : Nat) (hd1 : 1 ≤ d) (hd2 : d ≤ 31) (rest : List Char) :
    parseDay2 (Nat.digitChar (d / 10) :: Nat.digitChar (d % 10) :: rest) = some (d, rest) := by
  interval_cases d <;> rfl

theorem parseDayEnd_pad (d : Nat) (hd1 : 1 ≤ d) (hd2 : d ≤ 31) :
    parseDayEnd [Nat.digitChar (d / 10), Nat.digitChar (d % 10)] = some d := by
  unfold parseDayEnd
  rw [parseDay2_pad d hd1 hd2 []]

theorem expectDash_cons (l : List Char) : expectDash ('-' :: l) = some l := by
  simp [expectDash]

theorem parseMDTail_pad (m d : Nat) (hm1 : 1 ≤ m) (hm2 : m ≤ 12) (hd1 : 1 ≤ d)
    (hd2 : d ≤ 31) :
    parseMDTail (Nat.digitChar (m / 10) :: Nat.digitChar (m % 10) :: '-' ::
      Nat.digitChar (d / 10) :: Nat.digitChar (d % 10) :: []) = some (m, d) := by
  unfold parseMDTail
  simp only [parseMonth2_pad m hm1 hm2, expectDash_cons, parseDayEnd_pad d hd1 hd2]

theorem daysInMonth_le_31 (y m : Nat) : daysInMonth y m ≤ 31 := by
  unfold daysInMonth
  split_ifs <;> omega

theorem parseDate_isoFormat (y m d : Nat) (hy1 : 1 ≤ y) (hy2 : y ≤ 9999)
    (hm1 : 1 ≤ m) (hm2 : m ≤ 12) (hd1 : 1 ≤ d) (hd2 : d ≤ daysInMonth y m) :
    parseDate (isoFormat y m d) = some (y, m, d) := by
  have hd31 : d ≤ 31 := le_trans hd2 (daysInMonth_le_31 y m)
  have hdata : (isoFormat y m d).data =
      Nat.digitChar (y / 1000) :: Nat.digitChar (y / 100 % 10) :: Nat.digitChar (y / 10 % 10) ::
        Nat.digitChar (y % 10) :: '-' :: Nat.digitChar (m / 10) :: Nat.digitChar (m % 10) ::
        '-' :: Nat.digitChar (d / 10) :: Nat.digitChar (d % 10) :: [] := by
    simp [isoFormat, pad4, pad2, String.data_append]
  have hY : y / 1000 * 1000 + y / 100 % 10 * 100 + y / 10 % 10 * 10 + y % 10 = y := by omega
  unfold parseDate
  rw [hdata]
  simp only [digitChar_isDigit (y / 1000) (by omega), digitChar_isDigit (y / 100 % 10) (by omega),
    digitChar_isDigit (y / 10 % 10) (by omega), digitChar_isDigit (y % 10) (by omega),
    expectDash_cons, parseMDTail_pad m d hm1 hm2 hd1 hd31,
    digitVal_digitChar (y / 1000) (by omega), digitVal_digitChar (y / 100 % 10) (by omega),
    digitVal_digitChar (y / 10 % 10) (by omega), digitVal_digitChar (y % 10) (by omega),
    hY, hy1, hd2, and_self, true_and, and_true, if_true]

/-- Claim C9: for every well-formed zero-padded year-month-day string,
`is_market_open` returns `false` exactly when the date is in the
holiday set or its weekday is Saturday (5) or Sunday (6), and `true`
otherwise; and a string the date parser rejects, when not in the
holiday set, makes the call fail with the date-parsing error. -/
theorem is_market_open_spec :
    (∀ y m d, 1 ≤ y → y ≤ 9999 → 1 ≤ m → m ≤ 12 → 1 ≤ d → d ≤ daysInMonth y m →
      is_market_open (isoFormat y m d) =
        Except.ok
          (if isoFormat y m d ∈ NSE_HOLIDAYS_2025 ∨ pyWeekday y m d = 5 ∨ pyWeekday y m d = 6
           then false else true)) ∧
    (∀ s, parseDate s = Option.none → s ∉ NSE_HOLIDAYS_2025 →
      is_market_open s = Except.error ("InvalidDate")) := by
  constructor
  · intro y m d hy1 hy2 hm1 hm2 hd1 hd2
    unfold is_market_open
    by_cases hmem : isoFormat y m d ∈ NSE_HOLIDAYS_2025
    · rw [if_pos hmem, if_pos (Or.inl hmem)]
    · rw [if_neg hmem, parseDate_isoFormat y m d hy1 hy2 hm1 hm2 hd1 hd2]
      show (if pyWeekday y m d = 5 ∨ pyWeekday y m d = 6 then Except.ok false
        else Except.ok true) = _
      by_cases hwk : pyWeekday y m d = 5 ∨ pyWeekday y m d = 6
      · rw [if_pos hwk, if_pos (Or.inr hwk)]
      · rw [if_neg hwk, if_neg (fun hc => hc.elim hmem hwk)]
  · intro s hparse hmem
    unfold is_market_open
    rw [if_neg hmem, hparse]

theorem is_market_open_spec_witness :
    (is_market_open (isoFormat 2025 10 13) =
      Except.ok
        (if isoFormat 2025 10 13 ∈ NSE_HOLIDAYS_2025 ∨ pyWeekday 2025 10 13 = 5 ∨
            pyWeekday 2025 10 13 = 6
         then false else true)) ∧
    is_market_open ("2025-13-40") = Except.error ("InvalidDate") :=
  ⟨is_market_open_spec.1 2025 10 13 (by norm_num) (by norm_num) (by norm_num) (by norm_num)
      (by norm_num) (by decide),
   is_market_open_spec.2 ("2025-13-40") (by decide) (by decide)⟩
